import Mathlib

/-!
Verification development for the PlasmaMind-Chat response orchestration engine.

The definitions below are a shallow embedding of the TypeScript source:
  * `src/services/aiAdapter.ts`   — `GeminiAdapter.chatStream`, `GeminiAdapter.generateImage`
  * `src/unnamed/part_002`        — an alternate revision of the same adapter class
  * `src/App.tsx`                 — `handleSendMessage` (send orchestrator / transcript reconciler)
  * `src/services/chatService.ts` — `chatService.addMessage` (persisted-store write)

Modelling conventions:
  * JavaScript strings are Lean `String`; the JS string methods used by the source
    (`includes`, `split`, `startsWith`, `toLowerCase`, `substring`, regex
    `/:(.*?);/`) are re-implemented below over `List Char` so that the kernel can
    evaluate them (`strContains`, `splitComma`, `strStartsWith`, `lowerStr`,
    `strTake`, `mimeOfHeader`).
  * network effects (the provider round trip, `fetch`, `FileReader`) are oracles:
    the resolved value is passed in as an explicit argument
    (`fetch : String → Option (String × String)`, `StreamOutcome`, the
    `generateImages` / `generateContent` responses).
  * a thrown JS exception is an explicit error value; code inside a `try` that
    throws is modelled by the value the enclosing `catch` produces.
  * callbacks (`onChunk` / `onComplete` / `onError`) are modelled as an emitted
    event trace (`List StreamEvent`); a callback that itself throws back into the
    adapter is outside the model (in the app all three are non-throwing closures).
-/

namespace PlasmaMind

/-- `types.ts`: `Role = 'user' | 'assistant' | 'system'`. -/
inductive Role where
  | user
  | assistant
  | system
deriving DecidableEq, Repr

/-- `types.ts`: the `Message` record.  `conversation_id` and `created_at` are
dropped: a single conversation is modelled and rows are kept in insertion order
(the store lists messages by `created_at` ascending, which coincides with
insertion order here).  `attachments?: string[]` is `Option (List String)`. -/
structure Message where
  id : String
  role : Role
  content : String
  image_url : Option String := none
  attachments : Option (List String) := none
deriving DecidableEq, Repr

/-! ### JS string primitives, re-implemented over `List Char` -/

/-- `haystack.includes(needle)` over char lists: `needle` is a contiguous
infix of `haystack`. -/
def listContains (haystack needle : List Char) : Bool :=
  match haystack with
  | [] => needle.isEmpty
  | _ :: tl => needle.isPrefixOf haystack || listContains tl needle

/-- JS `s.includes(pat)`. -/
def strContains (s pat : String) : Bool :=
  listContains s.toList pat.toList

/-- JS `s.startsWith(pat)`. -/
def strStartsWith (s pat : String) : Bool :=
  pat.toList.isPrefixOf s.toList

/-- JS `s.split(sep)` for a one-character separator (`"".split(sep)` is `[""]`). -/
def splitChar (sep : Char) : List Char → List (List Char)
  | [] => [[]]
  | c :: tl =>
    let r := splitChar sep tl
    if c = sep then [] :: r
    else match r with
      | [] => [[c]]
      | seg :: rest => (c :: seg) :: rest

/-- JS `s.split(',')`, as used by the destructurings `[header, data] = att.split(',')`. -/
def splitComma (s : String) : List (List Char) :=
  splitChar (',') s.toList

/-- JS `s.toLowerCase()` (ASCII, which is all the source compares). -/
def lowerStr (s : String) : String :=
  (s.toList.map Char.toLower).asString

/-- JS `s.substring(0, n)`. -/
def strTake (s : String) (n : Nat) : String :=
  (s.toList.take n).asString

/-- Chars strictly after the first occurrence of `sep`, if any. -/
def afterChar (sep : Char) : List Char → Option (List Char)
  | [] => none
  | c :: tl => if c = sep then some tl else afterChar sep tl

/-- Chars strictly before the first occurrence of `sep`, if any occurrence exists. -/
def upToChar (sep : Char) : List Char → Option (List Char)
  | [] => none
  | c :: tl => if c = sep then some [] else (upToChar sep tl).map (c :: ·)

/-- `header.match(/:(.*?);/)?.[1] || 'application/octet-stream'`
(`aiAdapter.ts` lines 20, 65, 89, 99): the lazy regex captures the chars between
the first `:` and the first `;` after it; with no match — or an empty (falsy)
capture — the fallback media type is used. -/
def mimeOfHeader (header : List Char) : String :=
  match afterChar (':') header with
  | none => "application/octet-stream"
  | some rest =>
    match upToChar (';') rest with
    | none => "application/octet-stream"
    | some cap => if cap.isEmpty then "application/octet-stream" else cap.asString

/-! ### `GeminiAdapter.chatStream` — request composition (`aiAdapter.ts` 46–126) -/

/-- A `{ mimeType, data }` pair.  `data` is `Option String` because the source
destructures `const [header, data] = att.split(',')`: with no comma in `att`,
`data` is `undefined` yet the part is still pushed. -/
structure InlineData where
  mimeType : String
  data : Option String
deriving DecidableEq, Repr

/-- One element of a request `parts` array. -/
inductive Part where
  | text (s : String)
  | inlineData (d : InlineData)
deriving DecidableEq, Repr

/-- One role-tagged history turn sent to the provider. -/
structure GTurn where
  role : String
  parts : List Part
deriving DecidableEq, Repr

/-- A Gemini request: model identifier, prior turns, and the current-turn parts. -/
structure GRequest where
  model : String
  history : List GTurn
  message : List Part
deriving DecidableEq, Repr

/-- `aiAdapter.ts` 63–66: parse a `data:` URL (also applied to the new
`attachment` parameter at lines 88–90, there without any prefix check). -/
def parseInlineAttachment (att : String) : InlineData :=
  { mimeType := mimeOfHeader ((splitComma att).headD [])
    data := ((splitComma att).get? 1).map List.asString }

/-- `aiAdapter.ts` 61–73 (history branch): a `data:` attachment is decoded
inline; an `http` attachment goes through `urlToInlineData`, whose resolved
value is the `fetch` oracle (`none` models both a failed fetch and an invalid
reader result); anything else is skipped. -/
def historyAttachmentInline (fetch : String → Option (String × String)) (att : String) :
    Option InlineData :=
  if strStartsWith att "data:" then some (parseInlineAttachment att)
  else if strStartsWith att "http" then
    (fetch att).map (fun p => { mimeType := p.1, data := some p.2 })
  else none

/-- `aiAdapter.ts` 92–102 (current-turn branch): same resolution, with the
`http` test written first in the source. -/
def currentAttachmentInline (fetch : String → Option (String × String)) (att : String) :
    Option InlineData :=
  if strStartsWith att "http" then
    (fetch att).map (fun p => { mimeType := p.1, data := some p.2 })
  else if strStartsWith att "data:" then some (parseInlineAttachment att)
  else none

/-- `aiAdapter.ts` 56–81: one history message becomes a role-tagged turn whose
parts are its text followed by every attachment that resolved.
`m.attachments && m.attachments.length > 0` behaves identically to folding over
`[]` when absent. -/
def historyTurn (fetch : String → Option (String × String)) (m : Message) : GTurn :=
  { role := if m.role = Role.assistant then "model" else "user"
    parts := Part.text m.content ::
      ((m.attachments.getD []).filterMap (historyAttachmentInline fetch)).map Part.inlineData }

/-- `aiAdapter.ts` 56: `messages.slice(0, -1)` mapped to provider turns. -/
def buildHistory (fetch : String → Option (String × String)) (messages : List Message) :
    List GTurn :=
  messages.dropLast.map (historyTurn fetch)

/-- `aiAdapter.ts` 84–103: the current-turn content.  A freshly added
`attachment` parameter is always parsed and pushed (lines 87–91) and takes
precedence over the last message's recorded attachments (lines 92–103). -/
def currentContent (fetch : String → Option (String × String)) (lastMessage : Message)
    (attachment : Option String) : List Part :=
  Part.text lastMessage.content ::
    match attachment with
    | some a => [Part.inlineData (parseInlineAttachment a)]
    | none =>
      ((lastMessage.attachments.getD []).filterMap (currentAttachmentInline fetch)).map
        Part.inlineData

/-! ### `GeminiAdapter.chatStream` — callback trace (`aiAdapter.ts` 105–125) -/

/-- A recorded callback invocation. -/
inductive StreamEvent where
  | chunk (text : String)
  | complete
  | error (msg : String)
deriving DecidableEq, Repr

/-- What the provider stream did, as an oracle: either the request itself
rejected (`chats.create` / `sendMessageStream` threw), or a sequence of
fragments (each with an optional `text` field) was delivered, after which the
iteration either ended normally (`streamError = none`) or threw. -/
inductive StreamOutcome where
  | requestError (msg : String)
  | fragments (frags : List (Option String)) (streamError : Option String)
deriving Repr

/-- `aiAdapter.ts` 114–118: `onChunk(chunk.text)` fires for each fragment whose
`text` is truthy (present and non-empty). -/
def chunkEvents (frags : List (Option String)) : List StreamEvent :=
  frags.filterMap fun f =>
    match f with
    | some t => if t ≠ "" then some (StreamEvent.chunk t) else none
    | none => none

/-- `aiAdapter.ts` 46–126, `chatStream` as a whole: the composed request (if
composition got that far) and the emitted callback trace.  With an empty
message list, `messages[messages.length - 1]` is `undefined` and reading
`.content` throws inside the `try` (line 84), so the `catch` fires `onError`
before any request exists. -/
def chatStream (fetch : String → Option (String × String)) (messages : List Message)
    (modelName : String) (attachment : Option String) (outcome : StreamOutcome) :
    Option GRequest × List StreamEvent :=
  match messages.getLast? with
  | none =>
    (none, [StreamEvent.error "TypeError: cannot read properties of undefined"])
  | some lastMessage =>
    let req : GRequest :=
      { model := modelName
        history := buildHistory fetch messages
        message := currentContent fetch lastMessage attachment }
    match outcome with
    | StreamOutcome.requestError e => (some req, [StreamEvent.error e])
    | StreamOutcome.fragments frags err =>
      (some req,
        chunkEvents frags ++
          match err with
          | some e => [StreamEvent.error e]
          | none => [StreamEvent.complete])

/-- `onComplete` recogniser. -/
def isComplete : StreamEvent → Bool
  | StreamEvent.complete => true
  | _ => false

/-- `onError` recogniser. -/
def isErrorEvent : StreamEvent → Bool
  | StreamEvent.error _ => true
  | _ => false

/-- `onChunk` recogniser. -/
def isChunkEvent : StreamEvent → Bool
  | StreamEvent.chunk _ => true
  | _ => false

/-- Whether this invocation is a failure path: empty message list (the
`lastMessage.content` TypeError), request rejection, or a throw during stream
iteration. -/
def streamFails (messages : List Message) (outcome : StreamOutcome) : Bool :=
  messages.getLast?.isNone ||
    match outcome with
    | StreamOutcome.requestError _ => true
    | StreamOutcome.fragments _ (some _) => true
    | StreamOutcome.fragments _ none => false

/-! ### `GeminiAdapter.generateImage` (`aiAdapter.ts` 128–182) -/

/-- A `{ mimeType, data }` inline part of a `generateContent` response part. -/
structure RInline where
  mimeType : String
  data : String
deriving DecidableEq, Repr

/-- One content part of a `generateContent` response candidate.  Missing fields
are `none`; a missing `data` behaves like the empty (falsy) string. -/
structure RPart where
  text : Option String := none
  inlineData : Option RInline := none
deriving DecidableEq, Repr

/-- One response candidate, collapsed to its `content.parts` array (the source
reads `candidates[0].content.parts` without further checks). -/
structure Candidate where
  parts : List RPart
deriving DecidableEq, Repr

/-- `aiAdapter.ts` 160–164: scan for the first part with
`part.inlineData && part.inlineData.data` truthy. -/
def findInlinePart : List RPart → Option RInline
  | [] => none
  | p :: rest =>
    match p.inlineData with
    | some d => if d.data ≠ "" then some d else findInlinePart rest
    | none => findInlinePart rest

/-- `aiAdapter.ts` 143–176: the general `generateContent` path.  `candidates`
is the response candidate list (`[]` models a missing or empty array). -/
def generalPath (modelName : String) (candidates : List Candidate) : Except String String :=
  match candidates with
  | [] => Except.error "No image data found in model response."
  | c :: _ =>
    match findInlinePart c.parts with
    | some d => Except.ok ("data:" ++ d.mimeType ++ ";base64," ++ d.data)
    | none =>
      match c.parts.head? with
      | some p0 =>
        match p0.text with
        | some t =>
          if t ≠ "" then
            if strContains (lowerStr t) "cannot generate images" then
              Except.error ("This model (" ++ modelName ++ ") does not support image generation. Please select 'gemini-2.5-flash-image' or an Imagen model in Admin settings.")
            else
              Except.error ("Model returned text instead of image: " ++ strTake t 100 ++ "...")
          else Except.error "No image data found in model response."
        | none => Except.error "No image data found in model response."
      | none => Except.error "No image data found in model response."

/-- `aiAdapter.ts` 128–182, `generateImage`.  `imagenBytes` is the oracle for
`imgResponse.generatedImages?.[0]?.image?.imageBytes` on the dedicated image
path; `candidates` is the oracle for the subsequent `generateContent` response.
Note line 137–139: when the model identifier contains `'imagen'` but no bytes
come back, there is no throw — control falls through to the general path. -/
def generateImage (prompt modelName : String) (imagenBytes : Option String)
    (candidates : List Candidate) : Except String String :=
  let _ := prompt
  if strContains modelName "imagen" then
    match imagenBytes with
    | some b64 =>
      if b64 ≠ "" then Except.ok ("data:image/jpeg;base64," ++ b64)
      else generalPath modelName candidates
    | none => generalPath modelName candidates
  else generalPath modelName candidates

/-- `src/unnamed/part_002` 128–186, the alternate revision of `generateImage`:
the marker test lowercases the identifier, a missing `imageBytes` throws
immediately ("Imagen model did not return image bytes."), the decline test also
accepts "unable to generate", and the messages differ. -/
def generateImageAlt (prompt modelName : String) (imagenBytes : Option String)
    (candidates : List Candidate) : Except String String :=
  let _ := prompt
  if strContains (lowerStr modelName) "imagen" then
    match imagenBytes with
    | some b64 =>
      if b64 ≠ "" then Except.ok ("data:image/jpeg;base64," ++ b64)
      else Except.error "Imagen model did not return image bytes."
    | none => Except.error "Imagen model did not return image bytes."
  else
    match candidates with
    | [] => Except.error "No image data found in model response. Please check if the selected model supports image generation."
    | c :: _ =>
      match findInlinePart c.parts with
      | some d => Except.ok ("data:" ++ d.mimeType ++ ";base64," ++ d.data)
      | none =>
        match c.parts.head? with
        | some p0 =>
          match p0.text with
          | some t =>
            if t ≠ "" then
              if strContains (lowerStr t) "cannot generate images" ||
                  strContains (lowerStr t) "unable to generate" then
                Except.error ("Model '" ++ modelName ++ "' declined image generation. Response: " ++ t)
              else
                Except.error ("Model returned text instead of image: " ++ strTake t 100 ++ "...")
            else Except.error "No image data found in model response. Please check if the selected model supports image generation."
          | none => Except.error "No image data found in model response. Please check if the selected model supports image generation."
        | none => Except.error "No image data found in model response. Please check if the selected model supports image generation."

/-! ### `chatService.addMessage` (`chatService.ts` 67–86) and the persisted store

The store is the list of rows of the `messages` table for one conversation, in
insertion order (`getMessages` sorts by `created_at` ascending, which insertion
order realises).  The database-generated row id is modelled as `"row-" ++ <row
count>`, which is injective over one store's lifetime. -/

/-- The `Omit<Message, 'id' | 'created_at'>` payload handed to `addMessage`. -/
structure NewMsg where
  role : Role
  content : String
  image_url : Option String := none
  attachments : Option (List String) := none
deriving DecidableEq, Repr

/-- `chatService.ts` 67–86: insert one row and return it (the conversation
timestamp bump touches no message row and is not modelled). -/
def addMessage (store : List Message) (msg : NewMsg) : Message × List Message :=
  let row : Message :=
    { id := "row-" ++ toString store.length
      role := msg.role
      content := msg.content
      image_url := msg.image_url
      attachments := msg.attachments }
  (row, store ++ [row])

/-! ### `handleSendMessage` — attachment upload and user-message persistence
(`App.tsx` 211–241) -/

/-- The blob-upload collaborator's outcome for the attached file. -/
inductive UploadOutcome where
  | success (publicUrl : String)
  | failure (err : String)
deriving DecidableEq, Repr

/-- `App.tsx` 213–231: on upload success the public URL is used; the `catch`
falls back to the local inline preview (`uploadedUrl = attachmentPreview`). -/
def resolveUploadedUrl (outcome : UploadOutcome) (attachmentPreview : Option String) :
    Option String :=
  match outcome with
  | UploadOutcome.success url => some url
  | UploadOutcome.failure _ => attachmentPreview

/-- `App.tsx` 211–241: upload the attachment if a file is present, then persist
the user message with `attachments: uploadedUrl ? [uploadedUrl] : undefined`. -/
def sendUserMessage (store : List Message) (text : String) (attachmentFile : Bool)
    (outcome : UploadOutcome) (attachmentPreview : Option String) :
    Message × List Message :=
  let uploadedUrl : Option String :=
    if attachmentFile then resolveUploadedUrl outcome attachmentPreview else none
  addMessage store
    { role := Role.user
      content := text
      attachments := uploadedUrl.map (fun u => [u]) }

/-! ### `handleSendMessage` — chat-stream reconciliation (`App.tsx` 288–331) -/

/-- `App.tsx` 291–298: the optimistic placeholder appended before streaming
starts (`assistantMsgId = crypto.randomUUID()`, `content: ''`). -/
def optimisticMsg (assistantMsgId : String) : Message :=
  { id := assistantMsgId, role := Role.assistant, content := "" }

/-- The streaming closure state: the cumulative `streamContent` buffer and the
visible transcript list. -/
structure ChatUIState where
  streamContent : String
  messages : List Message
deriving DecidableEq, Repr

/-- `App.tsx` 310–312: the `setMessages` updater that replaces the
placeholder's content with the cumulative buffer. -/
def onChunkUpdate (assistantMsgId buffer : String) (msgs : List Message) : List Message :=
  msgs.map fun m => if m.id == assistantMsgId then { m with content := buffer } else m

/-- `App.tsx` 308–313: one `onChunk` invocation — append the fragment to
`streamContent`, then apply `onChunkUpdate` with the new buffer. -/
def onChunkStep (assistantMsgId : String) (st : ChatUIState) (chunk : String) : ChatUIState :=
  let sc := st.streamContent ++ chunk
  { streamContent := sc, messages := onChunkUpdate assistantMsgId sc st.messages }

/-- The chunk callback applied over a fragment sequence in arrival order. -/
def runChunks (assistantMsgId : String) (st : ChatUIState) (chunks : List String) :
    ChatUIState :=
  chunks.foldl (onChunkStep assistantMsgId) st

/-- The placeholder's visible content: the content of the first message whose
id matches. -/
def contentOf (msgs : List Message) (assistantMsgId : String) : Option String :=
  (msgs.find? fun m => m.id == assistantMsgId).map Message.content

/-! ### `handleSendMessage` — image mode (`App.tsx` 257–286) -/

/-- `App.tsx` 259–264: persist the "Generating image..." placeholder through
`chatService.addMessage` and append the returned row to the local transcript.
Returns (store, local transcript, placeholder row). -/
def imageDispatch (store localMsgs : List Message) :
    List Message × List Message × Message :=
  let r := addMessage store { role := Role.assistant, content := "Generating image..." }
  (r.2, localMsgs ++ [r.1], r.1)

/-- `App.tsx` 266–283: resolve the image request.  On success a *new* assistant
row carrying the image is persisted via `addMessage` and the local transcript
replaces the placeholder with that row (`prev.map (m => m.id === placeholderMsg.id ? imgMsg : m)`).
On failure a dedicated failure row is persisted and the transcript is reloaded
from the store (`loadMessages`). -/
def imageResolve (store localMsgs : List Message) (placeholderMsg : Message)
    (text : String) (result : Except String String) : List Message × List Message :=
  match result with
  | Except.ok imageUrl =>
    let r := addMessage store
      { role := Role.assistant
        content := "Here is your image for: \"" ++ text ++ "\""
        image_url := some imageUrl }
    (r.2, localMsgs.map fun m => if m.id == placeholderMsg.id then r.1 else m)
  | Except.error emsg =>
    let r := addMessage store
      { role := Role.assistant
        content := "Failed to generate image. Error: " ++ emsg }
    (r.2, r.2)

/-! ### Helper lemmas -/

/-- `listContains` decides the contiguous-infix relation, i.e. it is JS
`String.prototype.includes`. -/
theorem listContains_iff (haystack needle : List Char) :
    listContains haystack needle = true ↔ needle <:+: haystack := by
  induction haystack with
  | nil => simp [listContains, List.isEmpty_iff, List.infix_nil]
  | cons c tl ih =>
    simp [listContains, Bool.or_eq_true, ih, List.isPrefixOf_iff_prefix,
      List.infix_cons_iff]

/-- A string is an infix of any concatenation surrounding it. -/
theorem strContains_append_middle (a m b : String) :
    strContains (a ++ m ++ b) m = true := by
  rw [strContains, listContains_iff]
  refine ⟨a.toList, b.toList, ?_⟩
  simp [String.toList, String.data_append]

/-- `strContains` extends along a right append. -/
theorem strContains_append_right (a b pat : String)
    (h : strContains b pat = true) : strContains (a ++ b) pat = true := by
  rw [strContains, listContains_iff] at h ⊢
  have hsuf : b.toList <:+: (a ++ b).toList := by
    have he : (a ++ b).toList = a.toList ++ b.toList := by
      simp [String.toList, String.data_append]
    rw [he]
    exact (List.suffix_append a.toList b.toList).isInfix
  exact h.trans hsuf

/-- The chunk-event prefix of a stream trace contains no `onComplete` event. -/
theorem countP_complete_chunkEvents (frags : List (Option String)) :
    (chunkEvents frags).countP isComplete = 0 := by
  rw [List.countP_eq_zero]
  intro e he
  rw [chunkEvents, List.mem_filterMap] at he
  obtain ⟨f, _, hf⟩ := he
  cases f with
  | none => simp at hf
  | some t =>
    by_cases h : t = "" <;> simp [h] at hf
    subst hf; simp [isComplete]

/-- The chunk-event prefix of a stream trace contains no `onError` event. -/
theorem countP_error_chunkEvents (frags : List (Option String)) :
    (chunkEvents frags).countP isErrorEvent = 0 := by
  rw [List.countP_eq_zero]
  intro e he
  rw [chunkEvents, List.mem_filterMap] at he
  obtain ⟨f, _, hf⟩ := he
  cases f with
  | none => simp at hf
  | some t =>
    by_cases h : t = "" <;> simp [h] at hf
    subst hf; simp [isErrorEvent]

/-! ### Claim theorems -/

/-- C1: for every invocation of `chatStream`, exactly one terminal callback
fires over the call's lifetime: on stream exhaustion without error,
`onComplete` fires exactly once and `onError` never; on any failure (empty
message list, request rejection, or a throw during stream iteration),
`onError` fires exactly once and `onComplete` never — never both, never
neither, however many `onChunk` events preceded it. -/
theorem C1_chatStream_terminal_callback_once
    (fetch : String → Option (String × String)) (messages : List Message)
    (modelName : String) (attachment : Option String) (outcome : StreamOutcome) :
    ((chatStream fetch messages modelName attachment outcome).2.countP isComplete
        = if streamFails messages outcome then 0 else 1)
    ∧ ((chatStream fetch messages modelName attachment outcome).2.countP isErrorEvent
        = if streamFails messages outcome then 1 else 0) := by
  cases h : messages.getLast? with
  | none =>
    simp [chatStream, h, streamFails, List.countP_cons, isComplete, isErrorEvent]
  | some lastMessage =>
    cases outcome with
    | requestError e =>
      simp [chatStream, h, streamFails, List.countP_cons, isComplete, isErrorEvent]
    | fragments frags err =>
      cases err with
      | none =>
        simp [chatStream, h, streamFails, List.countP_append,
          countP_complete_chunkEvents, countP_error_chunkEvents,
          List.countP_cons, isComplete, isErrorEvent]
      | some e =>
        simp [chatStream, h, streamFails, List.countP_append,
          countP_complete_chunkEvents, countP_error_chunkEvents,
          List.countP_cons, isComplete, isErrorEvent]

/-- C10: calling `chatStream` with an empty message list does not escape as an
uncaught exception — reading `.content` of the missing last message throws
inside the guarded `try`, so no request is composed and the call terminates
with exactly one `onError` and zero `onChunk` / `onComplete` invocations,
whatever the provider would have done. -/
theorem C10_empty_messages_single_onError
    (fetch : String → Option (String × String)) (modelName : String)
    (attachment : Option String) (outcome : StreamOutcome) :
    (chatStream fetch [] modelName attachment outcome).1 = none
    ∧ (chatStream fetch [] modelName attachment outcome).2.countP isErrorEvent = 1
    ∧ (chatStream fetch [] modelName attachment outcome).2.countP isComplete = 0
    ∧ (chatStream fetch [] modelName attachment outcome).2.countP isChunkEvent = 0 := by
  simp [chatStream, List.countP_cons, isErrorEvent, isComplete, isChunkEvent]

/-- C9: the `setMessages` updater that replaces the placeholder's content with
the cumulative chunk buffer is idempotent — applying it twice with the same
buffer yields the same visible transcript as applying it once. -/
theorem C9_placeholder_update_idempotent
    (assistantMsgId buffer : String) (msgs : List Message) :
    onChunkUpdate assistantMsgId buffer (onChunkUpdate assistantMsgId buffer msgs)
      = onChunkUpdate assistantMsgId buffer msgs := by
  simp only [onChunkUpdate, List.map_map]
  apply List.map_congr_left
  intro m _
  by_cases h : (m.id == assistantMsgId) = true
  · simp [Function.comp, h]
  · simp [Function.comp, h]

/-- C8: when the blob upload of an attached file fails, the send is not
aborted — the user message is still persisted, with the local inline preview
standing in for the public URL as the attachment reference. -/
theorem C8_upload_failure_falls_back_to_preview
    (store : List Message) (text err preview : String) :
    (sendUserMessage store text true (UploadOutcome.failure err) (some preview)).1
        ∈ (sendUserMessage store text true (UploadOutcome.failure err) (some preview)).2
    ∧ (sendUserMessage store text true (UploadOutcome.failure err) (some preview)).1.content
        = text
    ∧ (sendUserMessage store text true (UploadOutcome.failure err) (some preview)).1.role
        = Role.user
    ∧ (sendUserMessage store text true (UploadOutcome.failure err) (some preview)).1.attachments
        = some [preview] := by
  refine ⟨?_, rfl, rfl, rfl⟩
  simp [sendUserMessage, resolveUploadedUrl, addMessage]

/-- The role mapping as the spec words it ("`assistant` → model-facing
\"model\" role; `user`/`system` → model-facing \"user\" role"), named so it can
be compared against the mapping the source performs. -/
def modelRole : Role → String
  | Role.assistant => "model"
  | Role.user => "user"
  | Role.system => "user"

/-- C3: the request composed by `chatStream` preserves the original order of
the history (`messages.slice(0, -1)`, turn `i` carrying message `i`'s text as
its leading part) and maps each role with `assistant` → "model" and
`user`/`system` → "user"; the composed request is exactly the history built
this way together with the current turn for the last message. -/
theorem C3_history_order_and_role_mapping
    (fetch : String → Option (String × String)) (messages : List Message)
    (modelName : String) (attachment : Option String) (outcome : StreamOutcome) :
    (buildHistory fetch messages).map GTurn.role
        = messages.dropLast.map (fun m => modelRole m.role)
    ∧ (buildHistory fetch messages).map (fun t => t.parts.head?)
        = messages.dropLast.map (fun m => some (Part.text m.content))
    ∧ (chatStream fetch messages modelName attachment outcome).1
        = messages.getLast?.map (fun lastMessage =>
            { model := modelName
              history := buildHistory fetch messages
              message := currentContent fetch lastMessage attachment }) := by
  refine ⟨?_, ?_, ?_⟩
  · rw [buildHistory, List.map_map]
    apply List.map_congr_left
    intro m _
    cases hm : m.role <;> simp [Function.comp, historyTurn, modelRole, hm]
  · rw [buildHistory, List.map_map]
    apply List.map_congr_left
    intro m _
    simp [Function.comp, historyTurn]
  · cases h : messages.getLast? with
    | none => simp [chatStream, h]
    | some lastMessage =>
      cases outcome with
      | requestError e => simp [chatStream, h]
      | fragments frags err => simp [chatStream, h]

/-- The first id-matching message in `prior ++ [ph]` is `ph` when no message of
`prior` carries the id. -/
theorem contentOf_append (prior : List Message) (ph : Message) (aid : String)
    (h : ∀ m ∈ prior, m.id ≠ aid) (hid : ph.id = aid) :
    contentOf (prior ++ [ph]) aid = some ph.content := by
  induction prior with
  | nil => simp [contentOf, List.find?_cons, hid]
  | cons a tl ih =>
    have ha : (a.id == aid) = false := by
      simp [h a (by simp)]
    simp only [contentOf, List.cons_append, List.find?_cons, ha]
    exact ih fun m hm => h m (by simp [hm])

/-- Running the chunk callback over a non-empty fragment list, starting from a
transcript of fresh messages followed by the placeholder: the buffer
accumulates the fragments left to right and the placeholder's content is
always the whole buffer. -/
theorem runChunks_cons_append (assistantMsgId : String) (prior : List Message)
    (h : ∀ m ∈ prior, m.id ≠ assistantMsgId) :
    ∀ (cs : List String) (c : String) (sc : String) (ph : Message),
    ph.id = assistantMsgId →
    runChunks assistantMsgId ⟨sc, prior ++ [ph]⟩ (c :: cs)
      = ⟨cs.foldl (· ++ ·) (sc ++ c),
         prior ++ [{ ph with content := cs.foldl (· ++ ·) (sc ++ c) }]⟩ := by
  intro cs
  induction cs with
  | nil =>
    intro c sc ph hid
    have hmap : onChunkUpdate assistantMsgId (sc ++ c) (prior ++ [ph])
        = prior ++ [{ ph with content := sc ++ c }] := by
      rw [onChunkUpdate, List.map_append]
      have hp : prior.map (fun m =>
          if m.id == assistantMsgId then { m with content := sc ++ c } else m) = prior := by
        have := List.map_congr_left (l := prior)
          (f := fun m => if m.id == assistantMsgId then { m with content := sc ++ c } else m)
          (g := id) (fun m hm => by simp [h m hm])
        simpa using this
      rw [hp]
      simp [hid]
    simp [runChunks, onChunkStep, hmap]
  | cons c2 cs ih =>
    intro c sc ph hid
    have hmap : onChunkUpdate assistantMsgId (sc ++ c) (prior ++ [ph])
        = prior ++ [{ ph with content := sc ++ c }] := by
      rw [onChunkUpdate, List.map_append]
      have hp : prior.map (fun m =>
          if m.id == assistantMsgId then { m with content := sc ++ c } else m) = prior := by
        have := List.map_congr_left (l := prior)
          (f := fun m => if m.id == assistantMsgId then { m with content := sc ++ c } else m)
          (g := id) (fun m hm => by simp [h m hm])
        simpa using this
      rw [hp]
      simp [hid]
    have hstep : runChunks assistantMsgId ⟨sc, prior ++ [ph]⟩ (c :: c2 :: cs)
        = runChunks assistantMsgId ⟨sc ++ c, prior ++ [{ ph with content := sc ++ c }]⟩
            (c2 :: cs) := by
      simp [runChunks, onChunkStep, hmap]
    rw [hstep, ih c2 (sc ++ c) { ph with content := sc ++ c } hid]
    rfl

/-- C2: a streaming reply arriving as the fragments `["Hi", " there", "!"]`
makes the placeholder's content read `"Hi"`, `"Hi there"`, `"Hi there!"` after
the successive `onChunk` calls — each update being the full cumulative buffer,
not a delta — and the content the completion handler persists (the final
`streamContent`) is the full concatenation `"Hi there!"`. -/
theorem C2_streaming_cumulative_buffer_scenario
    (prior : List Message) (assistantMsgId : String) (store : List Message)
    (h : ∀ m ∈ prior, m.id ≠ assistantMsgId) :
    contentOf (runChunks assistantMsgId
        ⟨"", prior ++ [optimisticMsg assistantMsgId]⟩ ["Hi"]).messages assistantMsgId
      = some "Hi"
    ∧ contentOf (runChunks assistantMsgId
        ⟨"", prior ++ [optimisticMsg assistantMsgId]⟩ ["Hi", " there"]).messages assistantMsgId
      = some "Hi there"
    ∧ contentOf (runChunks assistantMsgId
        ⟨"", prior ++ [optimisticMsg assistantMsgId]⟩
        ["Hi", " there", "!"]).messages assistantMsgId
      = some "Hi there!"
    ∧ (runChunks assistantMsgId
        ⟨"", prior ++ [optimisticMsg assistantMsgId]⟩
        ["Hi", " there", "!"]).streamContent
      = "Hi there!"
    ∧ (addMessage store
        { role := Role.assistant
          content := (runChunks assistantMsgId
            ⟨"", prior ++ [optimisticMsg assistantMsgId]⟩
            ["Hi", " there", "!"]).streamContent }).1.content
      = "Hi there!" := by
  have hid : (optimisticMsg assistantMsgId).id = assistantMsgId := rfl
  have e1 := runChunks_cons_append assistantMsgId prior h [] "Hi" ""
    (optimisticMsg assistantMsgId) hid
  have e2 := runChunks_cons_append assistantMsgId prior h [" there"] "Hi" ""
    (optimisticMsg assistantMsgId) hid
  have e3 := runChunks_cons_append assistantMsgId prior h [" there", "!"] "Hi" ""
    (optimisticMsg assistantMsgId) hid
  refine ⟨?_, ?_, ?_, ?_, ?_⟩
  · rw [e1, contentOf_append prior _ assistantMsgId h rfl]
    rfl
  · rw [e2, contentOf_append prior _ assistantMsgId h rfl]
    rfl
  · rw [e3, contentOf_append prior _ assistantMsgId h rfl]
    rfl
  · rw [e3]
    rfl
  · rw [e3]
    rfl

/-- Witness for C2 at a concrete transcript: one prior user message, the
placeholder id `"a1"`, an empty store. -/
theorem C2_streaming_cumulative_buffer_scenario_witness :
    (∀ m ∈ ([{ id := "u1", role := Role.user, content := "hello" }] : List Message),
        m.id ≠ "a1")
    ∧ contentOf (runChunks "a1"
        ⟨"", [{ id := "u1", role := Role.user, content := "hello" }] ++ [optimisticMsg "a1"]⟩
        ["Hi", " there", "!"]).messages "a1" = some "Hi there!" :=
  ⟨by decide,
   (C2_streaming_cumulative_buffer_scenario
      [{ id := "u1", role := Role.user, content := "hello" }] "a1" []
      (by decide)).2.2.1⟩

/-- C4: on the general (non-image-marker) path, whenever the response's first
candidate contains an inline image part (the first such part being `d`),
`generateImage` returns that part re-encoded as a self-describing `data:` URL —
whatever text parts the response also carries, they never determine the
outcome. -/
theorem C4_inline_image_part_wins
    (prompt modelName : String) (imagenBytes : Option String)
    (c : Candidate) (rest : List Candidate) (d : RInline)
    (hm : strContains modelName "imagen" = false)
    (hd : findInlinePart c.parts = some d) :
    generateImage prompt modelName imagenBytes (c :: rest)
      = Except.ok ("data:" ++ d.mimeType ++ ";base64," ++ d.data) := by
  simp [generateImage, hm, generalPath, hd]

/-- Witness for C4: a general model, a response carrying a text part followed
by an inline image part — the image part wins. -/
theorem C4_inline_image_part_wins_witness :
    strContains "gemini-2.5-flash" "imagen" = false
    ∧ findInlinePart [{ text := some "Sure, here it is" },
        { inlineData := some { mimeType := "image/png", data := "AAAA" } }]
      = some { mimeType := "image/png", data := "AAAA" }
    ∧ generateImage "draw a cat" "gemini-2.5-flash" none
        [{ parts := [{ text := some "Sure, here it is" },
            { inlineData := some { mimeType := "image/png", data := "AAAA" } }] }]
      = Except.ok "data:image/png;base64,AAAA" :=
  ⟨by decide, by decide,
   C4_inline_image_part_wins "draw a cat" "gemini-2.5-flash" none
     { parts := [{ text := some "Sure, here it is" },
         { inlineData := some { mimeType := "image/png", data := "AAAA" } }] }
     [] { mimeType := "image/png", data := "AAAA" } (by decide) (by decide)⟩

/-- C7: on the general path, a response whose content parts are the single
text part "I cannot generate images" makes `generateImage` fail with the
capability-refusal error (the spec's `GenerationDeclined`), whose message
references the model identifier and suggests the alternate models
`gemini-2.5-flash-image` / Imagen. -/
theorem C7_general_decline_error_names_model
    (prompt modelName : String) (imagenBytes : Option String)
    (hm : strContains modelName "imagen" = false) :
    generateImage prompt modelName imagenBytes
        [{ parts := [{ text := some "I cannot generate images" }] }]
      = Except.error ("This model (" ++ modelName
          ++ ") does not support image generation. Please select 'gemini-2.5-flash-image' or an Imagen model in Admin settings.")
    ∧ strContains ("This model (" ++ modelName
          ++ ") does not support image generation. Please select 'gemini-2.5-flash-image' or an Imagen model in Admin settings.")
        modelName = true
    ∧ strContains ("This model (" ++ modelName
          ++ ") does not support image generation. Please select 'gemini-2.5-flash-image' or an Imagen model in Admin settings.")
        "gemini-2.5-flash-image" = true := by
  refine ⟨?_, ?_, ?_⟩
  · have hc : strContains (lowerStr "I cannot generate images") "cannot generate images"
        = true := by decide
    simp [generateImage, hm, generalPath, findInlinePart, hc]
  · exact strContains_append_middle "This model (" modelName
      ") does not support image generation. Please select 'gemini-2.5-flash-image' or an Imagen model in Admin settings."
  · apply strContains_append_right
    decide

/-- Witness for C7 at the concrete general model `gemini-2.5-flash`. -/
theorem C7_general_decline_error_names_model_witness :
    strContains "gemini-2.5-flash" "imagen" = false
    ∧ generateImage "draw a cat" "gemini-2.5-flash" none
        [{ parts := [{ text := some "I cannot generate images" }] }]
      = Except.error ("This model (" ++ "gemini-2.5-flash"
          ++ ") does not support image generation. Please select 'gemini-2.5-flash-image' or an Imagen model in Admin settings.") :=
  ⟨by decide,
   (C7_general_decline_error_names_model "draw a cat" "gemini-2.5-flash" none
      (by decide)).1⟩

/-- C6 counterexample: `generateImage` on an imagen-marked model whose image
endpoint returns no image bytes does not fail with an error naming the model —
with an empty subsequent `generateContent` response the error is the generic
"No image data found in model response.", which does not contain the model
identifier; the alternate revision's immediate throw ("Imagen model did not
return image bytes.") omits the model name as well. -/
theorem C6_counterexample_error_omits_model_name :
    generateImage "a cat" "imagen-3.0" none []
      = Except.error "No image data found in model response."
    ∧ strContains "No image data found in model response." "imagen-3.0" = false
    ∧ generateImageAlt "a cat" "imagen-3.0" none []
      = Except.error "Imagen model did not return image bytes."
    ∧ strContains "Imagen model did not return image bytes." "imagen-3.0" = false := by
  refine ⟨rfl, by decide, rfl, by decide⟩

/-- C6 (amended): when the model identifier contains the image-model marker
and the image endpoint returns no image bytes, `generateImage` does not throw
a model-naming error — it falls through to the general content-generation
path, whose outcome (with nothing usable there, the generic error "No image
data found in model response.") decides the call; the alternate revision
instead fails immediately with "Imagen model did not return image bytes.",
likewise without the model name in the message. -/
theorem C6_imagen_no_bytes_falls_through
    (prompt modelName : String) (candidates : List Candidate)
    (hm : strContains modelName "imagen" = true) :
    generateImage prompt modelName none candidates = generalPath modelName candidates
    ∧ generateImage prompt modelName (some "") candidates = generalPath modelName candidates
    ∧ generalPath modelName [] = Except.error "No image data found in model response." := by
  refine ⟨?_, ?_, rfl⟩
  · simp [generateImage, hm]
  · simp [generateImage, hm]

/-- Witness for C6 (amended) at the concrete identifier `imagen-3.0`. -/
theorem C6_imagen_no_bytes_falls_through_witness :
    strContains "imagen-3.0" "imagen" = true
    ∧ generateImage "a cat" "imagen-3.0" none [] = generalPath "imagen-3.0" [] :=
  ⟨by decide,
   (C6_imagen_no_bytes_falls_through "a cat" "imagen-3.0" [] (by decide)).1⟩

/-- C5 counterexample: dispatching an image send and resolving it successfully
leaves TWO assistant rows in the persisted store — the "Generating image..."
placeholder row is still there, unchanged, next to the appended image row — so
the persisted placeholder is not updated in place. -/
theorem C5_counterexample_second_record_appended :
    (imageResolve (imageDispatch [] []).1 (imageDispatch [] []).2.1
        (imageDispatch [] []).2.2 "a cat"
        (Except.ok "data:image/png;base64,AB")).1.countP
        (fun m => m.role == Role.assistant) = 2
    ∧ (imageResolve (imageDispatch [] []).1 (imageDispatch [] []).2.1
        (imageDispatch [] []).2.2 "a cat"
        (Except.ok "data:image/png;base64,AB")).1.countP
        (fun m => m.content == "Generating image...") = 1 := by
  refine ⟨by decide, by decide⟩

/-- C5 (amended): in image mode the "Generating image..." placeholder IS
persisted immediately through the store write, but when the image resolves the
code appends a SECOND assistant row to the store (there is no update-in-place
of the persisted row, which remains); only the local transcript replaces the
placeholder with the new row in place. -/
theorem C5_image_placeholder_persisted_then_appended
    (store localMsgs : List Message) (text imageUrl : String) :
    (imageDispatch store localMsgs).2.2 ∈ (imageDispatch store localMsgs).1
    ∧ (imageDispatch store localMsgs).2.2.content = "Generating image..."
    ∧ (imageDispatch store localMsgs).2.2.role = Role.assistant
    ∧ (imageResolve (imageDispatch store localMsgs).1 (imageDispatch store localMsgs).2.1
          (imageDispatch store localMsgs).2.2 text (Except.ok imageUrl)).1
        = (imageDispatch store localMsgs).1
            ++ [(addMessage (imageDispatch store localMsgs).1
                  { role := Role.assistant
                    content := "Here is your image for: \"" ++ text ++ "\""
                    image_url := some imageUrl }).1]
    ∧ (imageDispatch store localMsgs).2.2
        ∈ (imageResolve (imageDispatch store localMsgs).1
            (imageDispatch store localMsgs).2.1 (imageDispatch store localMsgs).2.2
            text (Except.ok imageUrl)).1
    ∧ (imageResolve (imageDispatch store localMsgs).1 (imageDispatch store localMsgs).2.1
          (imageDispatch store localMsgs).2.2 text (Except.ok imageUrl)).2
        = (imageDispatch store localMsgs).2.1.map
            (fun m => if m.id == (imageDispatch store localMsgs).2.2.id
              then (addMessage (imageDispatch store localMsgs).1
                { role := Role.assistant
                  content := "Here is your image for: \"" ++ text ++ "\""
                  image_url := some imageUrl }).1
              else m) := by
  refine ⟨?_, rfl, rfl, rfl, ?_, rfl⟩
  · simp [imageDispatch, addMessage]
  · simp [imageResolve, imageDispatch, addMessage]

end PlasmaMind
